import Mathlib

/-!
Verification of the trading-bot position-lifecycle and risk-control engine
(`main.py`, class `TradingBot`, with configuration defaults from `config.py`).

Embedding conventions:
* Python float arithmetic is modelled over `ℚ` (the engine's identities are
  exact field identities; no float-rounding-sensitive claim is handled here).
* Indicator values that may be NaN ("not yet warmed up") are modelled as
  `Option ℚ`; a Python comparison against NaN is `False`, modelled by
  comparison operators on `Option ℚ` that return `false` when a side is `none`.
* `datetime.now()` is modelled by an explicit `Timestamp` argument.
* `exit(1)` on a breached risk limit is modelled by a `halted` latch on the
  agent state; a halted agent performs no further operations.
* Database writes and logging are I/O with no effect on engine state; they
  appear only in the tick-flow model (`runTick`) that tracks which steps of
  one main-loop iteration execute when a persistence write raises.
* Unused metadata fields of the Python trade dict (`timestamp`) and config
  keys never read by the engine (API credentials, indicator window sizes,
  log settings) are omitted.
-/

/-- Trading signal returned by `check_trading_signals`: the Python strings
`'buy'` and `'sell'` (`None` is modelled by `Option Signal`). -/
inductive Signal
  | buy
  | sell
deriving DecidableEq

/-- Side of a trade as the specification describes it: `Long` profits when
price rises, `Short` when it falls. -/
inductive Side
  | long
  | short
deriving DecidableEq

/-- The side recorded at open time: a `'buy'` signal opens a Long position, a
`'sell'` signal a Short one (spec §3/§4.3; in the code the simulated open
stores the signal string in the trade's `type` field). -/
def sideOfSignal : Signal → Side
  | Signal.buy => Side.long
  | Signal.sell => Side.short

/-- The side the live-mode code derives at exit-check/close time
(`main.py` lines 236 and 275): `trade['entry_price'] > current_price`
selects the "Long position" branch, anything else the "Short position"
branch. -/
def liveDerivedSide (entry current : ℚ) : Side :=
  if entry > current then Side.long else Side.short

/-- Reason passed to `close_trade`: the strings `'stop_loss'` / `'take_profit'`. -/
inductive CloseReason
  | stopLoss
  | takeProfit
deriving DecidableEq

/-- One open trade, as built by `execute_trade`. The `type` field holds the
opening signal; the live-mode branches of `execute_trade` never store a
`type` key in the trade dict, modelled by `none`. -/
structure Trade where
  entry_price : ℚ
  stop_loss : ℚ
  take_profit : ℚ
  size : ℚ
  type : Option Signal
deriving DecidableEq

/-- The bot configuration keys read by the engine, with `defaultBotConfig`
below carrying the literal defaults of `config.py`. -/
structure BotConfig where
  initial_balance : ℚ
  position_size : ℚ
  stop_loss : ℚ
  take_profit : ℚ
  rsi_overbought : ℚ
  rsi_oversold : ℚ
  max_open_trades : ℕ
  max_daily_loss : ℚ
  max_drawdown : ℚ
  simulation_mode : Bool
  simulation_spread : ℚ
  simulation_slippage : ℚ
deriving DecidableEq

/-- `DEFAULT_BOT_CONFIG` of `config.py` (the engine-relevant keys):
`initial_balance 1000`, `position_size 0.1`, `stop_loss 0.02`,
`take_profit 0.04`, RSI bounds `70`/`30`, `max_open_trades 3`,
`max_daily_loss 0.05`, `max_drawdown 0.15`, `simulation_spread 0.001`,
`simulation_slippage 0.0005`, simulation mode on. -/
def defaultBotConfig : BotConfig where
  initial_balance := 1000
  position_size := 1/10
  stop_loss := 1/50
  take_profit := 1/25
  rsi_overbought := 70
  rsi_oversold := 30
  max_open_trades := 3
  max_daily_loss := 1/20
  max_drawdown := 3/20
  simulation_mode := true
  simulation_spread := 1/1000
  simulation_slippage := 1/2000

/-- Indicator values of the last row of the dataframe, after
`calculate_indicators`; `none` models NaN (indicator not yet warmed up). -/
structure IndicatorSnapshot where
  rsi : Option ℚ
  sma_fast : Option ℚ
  sma_slow : Option ℚ
deriving DecidableEq

/-- Python `a < b` where either operand may be NaN: any comparison with NaN
is `False`. -/
def oLt (a b : Option ℚ) : Bool :=
  match a, b with
  | some x, some y => decide (x < y)
  | _, _ => false

/-- Python `a > b` where either operand may be NaN. -/
def oGt (a b : Option ℚ) : Bool :=
  match a, b with
  | some x, some y => decide (y < x)
  | _, _ => false

/-- `check_trading_signals` (`main.py` lines 116-130): `'buy'` when
`rsi < rsi_oversold and sma_fast > sma_slow`, else `'sell'` when
`rsi > rsi_overbought and sma_fast < sma_slow`, else `None`. -/
def checkTradingSignals (cfg : BotConfig) (row : IndicatorSnapshot) :
    Option Signal :=
  if oLt row.rsi (some cfg.rsi_oversold) && oGt row.sma_fast row.sma_slow then
    some Signal.buy
  else if oGt row.rsi (some cfg.rsi_overbought) && oLt row.sma_fast row.sma_slow then
    some Signal.sell
  else
    none

/-- The simulated-mode fill of `execute_trade` (`main.py` lines 142-147):
spread and slippage are added to the reference price for a buy and
subtracted for a sell. -/
def simulatedFill (cfg : BotConfig) (signal : Signal) (ref : ℚ) : ℚ :=
  match signal with
  | Signal.buy => ref * (1 + cfg.simulation_spread + cfg.simulation_slippage)
  | Signal.sell => ref * (1 - cfg.simulation_spread - cfg.simulation_slippage)

/-- The simulated-mode PnL of `close_trade` (`main.py` lines 250-254),
branching on the recorded `type` field. -/
def closeTradePnlSim (t : Trade) (current : ℚ) : ℚ :=
  if t.type = some Signal.buy then
    (current - t.entry_price) * t.size / t.entry_price
  else
    (t.entry_price - current) * t.size / t.entry_price

/-- The live-mode PnL of `close_trade` (`main.py` lines 275-278): the branch
is chosen by `entry_price > current_price`, not by a recorded side. -/
def closeTradePnlLive (entry current size : ℚ) : ℚ :=
  if entry > current then
    (current - entry) * size / entry
  else
    (entry - current) * size / entry

/-- Exit decision for one trade in `check_open_trades`. -/
inductive CloseAction
  | keep
  | close (reason : CloseReason)
deriving DecidableEq

/-- Simulated-mode exit conditions of `check_open_trades` (`main.py`
lines 224-234), branching on the recorded `type` field. -/
def exitActionSim (t : Trade) (current : ℚ) : CloseAction :=
  if t.type = some Signal.buy then
    if current ≤ t.stop_loss then CloseAction.close CloseReason.stopLoss
    else if current ≥ t.take_profit then CloseAction.close CloseReason.takeProfit
    else CloseAction.keep
  else
    if current ≥ t.stop_loss then CloseAction.close CloseReason.stopLoss
    else if current ≤ t.take_profit then CloseAction.close CloseReason.takeProfit
    else CloseAction.keep

/-- Live-mode exit conditions of `check_open_trades` (`main.py`
lines 235-245): the long/short branch is chosen by `liveDerivedSide`, i.e.
by comparing `entry_price` with the current price. -/
def exitActionLive (t : Trade) (current : ℚ) : CloseAction :=
  match liveDerivedSide t.entry_price current with
  | Side.long =>
    if current ≤ t.stop_loss then CloseAction.close CloseReason.stopLoss
    else if current ≥ t.take_profit then CloseAction.close CloseReason.takeProfit
    else CloseAction.keep
  | Side.short =>
    if current ≥ t.stop_loss then CloseAction.close CloseReason.stopLoss
    else if current ≤ t.take_profit then CloseAction.close CloseReason.takeProfit
    else CloseAction.keep

/-- Wall-clock instant read by `datetime.now()`, to the granularity the
engine inspects (`hour`, `minute`) plus the calendar day for stating
day-boundary properties. -/
structure Timestamp where
  day : ℕ
  hour : ℕ
  minute : ℕ
  second : ℕ
deriving DecidableEq

/-- The daily-loss reset condition of `update_risk_metrics` (`main.py`
line 345): `datetime.now().hour == 0 and datetime.now().minute == 0`. -/
def resetFires (t : Timestamp) : Bool :=
  t.hour == 0 && t.minute == 0

/-- How many ticks of a tick sequence fire the code's daily-loss reset. -/
def countResets (ts : List Timestamp) : ℕ :=
  (ts.filter resetFires).length

/-- How many calendar-day boundaries a tick sequence crosses: the number of
adjacent tick pairs whose calendar day differs. -/
def dayCrossings : List Timestamp → ℕ
  | [] => 0
  | [_] => 0
  | a :: b :: rest => (if a.day ≠ b.day then 1 else 0) + dayCrossings (b :: rest)

/-- The per-agent mutable state of `TradingBot` (`__init__`,
`main.py` lines 26-30), with `halted` modelling that `exit(1)` in
`update_risk_metrics` has been reached. -/
structure AgentState where
  balance : ℚ
  open_trades : List Trade
  daily_loss : ℚ
  max_drawdown : ℚ
  halted : Bool
deriving DecidableEq

/-- The state right after `__init__`: balance is the configured initial
balance, no open trades, both risk accumulators zero. -/
def initState (cfg : BotConfig) : AgentState where
  balance := cfg.initial_balance
  open_trades := []
  daily_loss := 0
  max_drawdown := 0
  halted := false

/-- Outcome of one `execute_trade` call: either the early return after the
max-open-trades warning (`main.py` lines 134-136), or a trade was appended. -/
inductive ExecResult
  | maxOpenTradesReached
  | opened (t : Trade)
deriving DecidableEq

/-- `execute_trade` (`main.py` lines 132-219): reject when
`len(open_trades) >= max_open_trades`; otherwise size the position as
`balance * position_size` and append a trade whose stop/take levels are the
fixed per-side formulas.  The simulated branch prices the entry through
`simulatedFill` and records the signal in `type`; the live branches use the
last price unchanged and store no `type`. -/
def executeTrade (cfg : BotConfig) (signal : Signal) (last_price : ℚ)
    (s : AgentState) : ExecResult × AgentState :=
  if s.open_trades.length ≥ cfg.max_open_trades then
    (ExecResult.maxOpenTradesReached, s)
  else
    let position_size := s.balance * cfg.position_size
    if cfg.simulation_mode then
      let entry := simulatedFill cfg signal last_price
      let t : Trade :=
        { entry_price := entry
          stop_loss := if signal = Signal.buy then entry * (1 - cfg.stop_loss)
                       else entry * (1 + cfg.stop_loss)
          take_profit := if signal = Signal.buy then entry * (1 + cfg.take_profit)
                         else entry * (1 - cfg.take_profit)
          size := position_size
          type := some signal }
      (ExecResult.opened t, { s with open_trades := s.open_trades ++ [t] })
    else
      match signal with
      | Signal.buy =>
        let t : Trade :=
          { entry_price := last_price
            stop_loss := last_price * (1 - cfg.stop_loss)
            take_profit := last_price * (1 + cfg.take_profit)
            size := position_size
            type := none }
        (ExecResult.opened t, { s with open_trades := s.open_trades ++ [t] })
      | Signal.sell =>
        let t : Trade :=
          { entry_price := last_price
            stop_loss := last_price * (1 + cfg.stop_loss)
            take_profit := last_price * (1 - cfg.take_profit)
            size := position_size
            type := none }
        (ExecResult.opened t, { s with open_trades := s.open_trades ++ [t] })

/-- One step of the `check_open_trades` loop: keep the trade, or realize its
PnL (computed by the mode's `close_trade` branch) into the balance and drop
it from the open set. -/
def checkTradeStep (cfg : BotConfig) (current : ℚ) (acc : ℚ × List Trade)
    (t : Trade) : ℚ × List Trade :=
  let action := if cfg.simulation_mode then exitActionSim t current
                else exitActionLive t current
  match action with
  | CloseAction.keep => (acc.1, acc.2 ++ [t])
  | CloseAction.close _ =>
    let pnl := if cfg.simulation_mode then closeTradePnlSim t current
               else closeTradePnlLive t.entry_price current t.size
    (acc.1 + pnl, acc.2)

/-- `check_open_trades` together with the `close_trade` calls it makes
(`main.py` lines 221-296): every open trade is examined against the current
price; trades whose stop-loss or take-profit condition holds are closed,
adding their PnL to the balance and removing them from `open_trades`. -/
def checkOpenTrades (cfg : BotConfig) (current : ℚ) (s : AgentState) :
    AgentState :=
  let r := s.open_trades.foldl (checkTradeStep cfg current) (s.balance, [])
  { s with balance := r.1, open_trades := r.2 }

/-- The drawdown computed each tick by `update_risk_metrics`
(`main.py` line 349). -/
def currentDrawdown (cfg : BotConfig) (s : AgentState) : ℚ :=
  (cfg.initial_balance - s.balance) / cfg.initial_balance

/-- `update_risk_metrics` (`main.py` lines 342-357): reset `daily_loss` when
the wall clock reads hour 0 minute 0; fold the current drawdown into
`max_drawdown`; then latch `halted` (the code's `exit(1)`) when either risk
limit is reached. -/
def updateRiskMetrics (cfg : BotConfig) (now : Timestamp) (s : AgentState) :
    AgentState :=
  let dl := if resetFires now then 0 else s.daily_loss
  let md := max s.max_drawdown (currentDrawdown cfg s)
  if cfg.max_daily_loss ≤ dl ∨ cfg.max_drawdown ≤ md then
    { s with daily_loss := dl, max_drawdown := md, halted := true }
  else
    { s with daily_loss := dl, max_drawdown := md }

/-- One engine operation of the main loop, as it touches the agent state. -/
inductive BotOp
  | exec (signal : Signal) (price : ℚ)
  | checkTrades (price : ℚ)
  | risk (now : Timestamp)

/-- Apply one operation to a non-halted agent. -/
def applyOp (cfg : BotConfig) (s : AgentState) : BotOp → AgentState
  | BotOp.exec signal price => (executeTrade cfg signal price s).2
  | BotOp.checkTrades price => checkOpenTrades cfg price s
  | BotOp.risk now => updateRiskMetrics cfg now s

/-- One step of the agent's life: a halted agent (the code's `exit(1)`)
performs no further operations. -/
def botStep (cfg : BotConfig) (s : AgentState) (op : BotOp) : AgentState :=
  if s.halted then s else applyOp cfg s op

/-- Run the agent through a sequence of main-loop operations. -/
def runOps (cfg : BotConfig) (ops : List BotOp) (s : AgentState) : AgentState :=
  ops.foldl (botStep cfg) s

/-- Which external calls fail during one main-loop iteration (`run`,
`main.py` lines 304-340): the market-data fetch itself, and the three
persistence writes `record_market_data`, `record_trade`,
`record_performance`. -/
structure TickFlags where
  fetchOk : Bool
  recordMarketDataFails : Bool
  recordTradeFails : Bool
  recordPerformanceFails : Bool
deriving DecidableEq

/-- `get_market_data` (`main.py` lines 50-100): the fetch and the
`record_market_data` call share one `try`; an exception from either path
is caught and the function returns `None`. -/
def getMarketData (fetchOk recordFails : Bool) : Option Unit :=
  if fetchOk then (if recordFails then none else some ()) else none

/-- Which steps of one main-loop iteration executed, and whether the loop
reaches the next iteration. -/
structure TickOutcome where
  dataFetched : Bool
  indicatorsComputed : Bool
  signalChecked : Bool
  openTradesChecked : Bool
  riskUpdated : Bool
  performanceRecorded : Bool
  loopContinues : Bool
deriving DecidableEq

/-- Control flow of one iteration of `run` (`main.py` lines 304-340).
When `get_market_data` returns `None` the iteration sleeps and continues,
skipping every later step.  Otherwise indicators, signal check, trade
management and the risk update all run; `record_trade` failures inside
`execute_trade` / `close_trade` are caught by those methods' own
`try`/`except` and change nothing here; a `record_performance` failure is
caught by the loop's `except`, which sleeps and continues. -/
def runTick (f : TickFlags) : TickOutcome :=
  match getMarketData f.fetchOk f.recordMarketDataFails with
  | none =>
    { dataFetched := false, indicatorsComputed := false, signalChecked := false
      openTradesChecked := false, riskUpdated := false
      performanceRecorded := false, loopContinues := true }
  | some _ =>
    { dataFetched := true, indicatorsComputed := true, signalChecked := true
      openTradesChecked := true, riskUpdated := true
      performanceRecorded := !f.recordPerformanceFails, loopContinues := true }

/-- A concrete simulated long trade (entry 100, stop 98, take 104,
size 1000) used as an evaluation input. -/
def sampleTrade : Trade where
  entry_price := 100
  stop_loss := 98
  take_profit := 104
  size := 1000
  type := some Signal.buy

/-- A concrete agent state already holding `max_open_trades` (three) open
trades under the default configuration. -/
def fullSampleState : AgentState where
  balance := 1000
  open_trades := [sampleTrade, sampleTrade, sampleTrade]
  daily_loss := 0
  max_drawdown := 0
  halted := false

/-- The `daily_loss` written by `update_risk_metrics` does not depend on the
risk-limit branch: it is the reset value when the clock reads hour 0
minute 0, and the previous value otherwise. -/
theorem updateRiskMetrics_daily_loss (cfg : BotConfig) (now : Timestamp)
    (s : AgentState) :
    (updateRiskMetrics cfg now s).daily_loss
      = if resetFires now then 0 else s.daily_loss := by
  unfold updateRiskMetrics
  dsimp only
  split <;> split <;> rfl

/-- Claim C1: the claim says the side used at exit-check and close time is
always the side recorded at open time.  In live (non-simulation) mode the
code instead re-derives the side by comparing `entry_price` with the current
price: a trade opened by a `'buy'` signal (recorded side Long) at entry 100
is handled by the Short branch once the price reaches 103, and
`check_open_trades` then closes this healthy long position as a stop-loss,
while the simulated branch (which uses the recorded side) keeps it open. -/
theorem live_mode_rederives_side :
  sideOfSignal Signal.buy = Side.long ∧
  liveDerivedSide 100 103 = Side.short ∧
  exitActionLive { entry_price := 100, stop_loss := 98, take_profit := 104,
                   size := 1000, type := none } 103
    = CloseAction.close CloseReason.stopLoss ∧
  exitActionSim { entry_price := 100, stop_loss := 98, take_profit := 104,
                  size := 1000, type := some Signal.buy } 103
    = CloseAction.keep := by
  decide

/-- Claim C2: the claim says `close` uses the Long PnL formula whenever the
trade's recorded side is Long, giving positive PnL when the price rose.  The
live-mode branch of `close_trade` instead selects the formula by comparing
`entry_price` with `current_price`: a trade opened by `'buy'` (recorded side
Long, entry 100, size 1000) closed at 110 yields PnL `-100` in live mode,
while the recorded-side formula (used by the simulated branch) yields
`+100`. -/
theorem live_mode_pnl_ignores_recorded_side :
  sideOfSignal Signal.buy = Side.long ∧
  (100 : ℚ) < 110 ∧
  closeTradePnlLive 100 110 1000 = -100 ∧
  closeTradePnlSim { entry_price := 100, stop_loss := 98, take_profit := 104,
                     size := 1000, type := some Signal.buy } 110 = 100 := by
  refine ⟨rfl, by norm_num, ?_, ?_⟩ <;>
    norm_num [closeTradePnlLive, closeTradePnlSim]

/-- Claim C3: the claim says the daily-loss reset happens exactly once per
calendar-day boundary crossing regardless of tick granularity.  The code
resets only when a tick lands with `hour == 0 and minute == 0`: for the tick
sequence 23:59:30 (day 0) followed 90 seconds later by 00:01:00 (day 1), one
day boundary is crossed but no tick fires the reset, and `daily_loss` is not
reset by either `update_risk_metrics` call. -/
theorem daily_reset_skipped_at_day_boundary :
  dayCrossings [⟨0, 23, 59, 30⟩, ⟨1, 0, 1, 0⟩] = 1 ∧
  countResets [⟨0, 23, 59, 30⟩, ⟨1, 0, 1, 0⟩] = 0 ∧
  (updateRiskMetrics defaultBotConfig ⟨1, 0, 1, 0⟩
      (updateRiskMetrics defaultBotConfig ⟨0, 23, 59, 30⟩
        { balance := 1000, open_trades := [], daily_loss := 5,
          max_drawdown := 0, halted := false })).daily_loss = 5 := by
  refine ⟨rfl, rfl, ?_⟩
  rw [updateRiskMetrics_daily_loss, updateRiskMetrics_daily_loss]
  simp [resetFires]

/-- Claim C6: in simulated mode the fill price is
`reference_price * (1 + spread + slippage)` for a buy and
`reference_price * (1 - spread - slippage)` for a sell (the function is
total, so the fill never fails), and with the default config's spread 0.001
and slippage 0.0005 a buy at reference price 50000 fills at 50075. -/
theorem simulated_fill_spec :
  (∀ cfg : BotConfig, ∀ ref : ℚ,
      simulatedFill cfg Signal.buy ref
        = ref * (1 + cfg.simulation_spread + cfg.simulation_slippage) ∧
      simulatedFill cfg Signal.sell ref
        = ref * (1 - cfg.simulation_spread - cfg.simulation_slippage)) ∧
  simulatedFill defaultBotConfig Signal.buy 50000 = 50075 := by
  refine ⟨fun cfg ref => ⟨rfl, rfl⟩, by norm_num [simulatedFill, defaultBotConfig]⟩

/-- Claim C8 (counterexample): a failure of the `record_market_data`
persistence write does block the tick: `get_market_data` catches it and
returns `None` (the fetch is treated as failed), so the iteration skips the
trade-management and risk-update steps. -/
theorem market_data_record_failure_aborts_tick :
  getMarketData true true = none ∧
  (runTick { fetchOk := true, recordMarketDataFails := true,
             recordTradeFails := false,
             recordPerformanceFails := false }).openTradesChecked = false ∧
  (runTick { fetchOk := true, recordMarketDataFails := true,
             recordTradeFails := false,
             recordPerformanceFails := false }).riskUpdated = false := by
  decide

/-- Claim C8 (amended): failures of `record_trade` and `record_performance`
never abort the tick — every engine step still executes and the loop
continues — but a failure of `record_market_data` makes `get_market_data`
return `None`, so the fetch is treated as failed and the rest of that
iteration is skipped (the loop itself still continues to the next tick). -/
theorem persistence_failure_tick_behavior (rt rp : Bool) :
  (runTick { fetchOk := true, recordMarketDataFails := false,
             recordTradeFails := rt, recordPerformanceFails := rp })
    = { dataFetched := true, indicatorsComputed := true, signalChecked := true,
        openTradesChecked := true, riskUpdated := true,
        performanceRecorded := !rp, loopContinues := true } ∧
  (runTick { fetchOk := true, recordMarketDataFails := true,
             recordTradeFails := rt, recordPerformanceFails := rp })
    = { dataFetched := false, indicatorsComputed := false,
        signalChecked := false, openTradesChecked := false,
        riskUpdated := false, performanceRecorded := false,
        loopContinues := true } :=
  ⟨rfl, rfl⟩

/-- Claim C10: in live mode, for positive entry price and size, the PnL
computed by `close_trade` is never positive: the branch chosen by comparing
`entry_price` with `current_price` always selects the formula whose
numerator is non-positive. -/
theorem live_close_pnl_nonpositive (entry current size : ℚ)
    (he : 0 < entry) (hs : 0 < size) :
    closeTradePnlLive entry current size ≤ 0 := by
  unfold closeTradePnlLive
  split_ifs with h
  · rw [div_nonpos_iff]
    refine Or.inr ⟨?_, he.le⟩
    nlinarith [mul_pos (sub_pos.mpr h) hs]
  · rw [div_nonpos_iff]
    refine Or.inr ⟨?_, he.le⟩
    nlinarith [mul_nonneg (sub_nonneg.mpr (le_of_not_lt h)) hs.le]

/-- Claim C10 (witness): a live-mode close of the trade opened at entry 100
with size 1000, at current price 110, has non-positive PnL. -/
theorem live_close_pnl_nonpositive_witness :
  closeTradePnlLive 100 110 1000 ≤ 0 :=
  live_close_pnl_nonpositive 100 110 1000 (by norm_num) (by norm_num)

/-- Claim C5: `check_trading_signals` returns `'buy'` exactly when
`rsi < rsi_oversold` and `sma_fast > sma_slow` with all three values
defined, `'sell'` exactly when `rsi > rsi_overbought` and
`sma_fast < sma_slow` with all three defined, and `None` in every other
case — in particular whenever any indicator value is NaN. -/
theorem signal_evaluation_spec (cfg : BotConfig) (row : IndicatorSnapshot) :
    (checkTradingSignals cfg row = some Signal.buy ↔
      (∃ r, row.rsi = some r ∧ r < cfg.rsi_oversold) ∧
      (∃ f sl, row.sma_fast = some f ∧ row.sma_slow = some sl ∧ sl < f)) ∧
    (checkTradingSignals cfg row = some Signal.sell ↔
      (∃ r, row.rsi = some r ∧ cfg.rsi_overbought < r) ∧
      (∃ f sl, row.sma_fast = some f ∧ row.sma_slow = some sl ∧ f < sl)) ∧
    ((row.rsi = none ∨ row.sma_fast = none ∨ row.sma_slow = none) →
      checkTradingSignals cfg row = none) := by
  obtain ⟨r0, f0, s0⟩ := row
  rcases r0 with _ | r <;> rcases f0 with _ | f <;> rcases s0 with _ | sl <;>
    simp [checkTradingSignals, oLt, oGt] <;>
    split_ifs with h1 h2 <;>
    simp_all <;>
    exact fun _ => h1.2.le

/-- Claim C5 (witness): with the default thresholds, an undefined RSI yields
no signal even though the moving averages would admit a buy. -/
theorem signal_evaluation_spec_witness :
  checkTradingSignals defaultBotConfig
      { rsi := none, sma_fast := some 105, sma_slow := some 100 } = none :=
  (signal_evaluation_spec defaultBotConfig
      { rsi := none, sma_fast := some 105, sma_slow := some 100 }).2.2
    (Or.inl rfl)

/-- `execute_trade` never removes a trade: when the cap check passes it
appends exactly one trade, otherwise it leaves the open set unchanged, so a
state within the cap stays within the cap. -/
theorem executeTrade_length_le (cfg : BotConfig) (signal : Signal) (p : ℚ)
    (s : AgentState) (h : s.open_trades.length ≤ cfg.max_open_trades) :
    (executeTrade cfg signal p s).2.open_trades.length
      ≤ cfg.max_open_trades := by
  unfold executeTrade
  dsimp only
  split_ifs with hguard hsim hbuy
  · exact h
  · simp only [List.length_append, List.length_cons, List.length_nil]
    omega
  · simp only [List.length_append, List.length_cons, List.length_nil]
    omega
  · cases signal <;>
      · simp only [List.length_append, List.length_cons, List.length_nil]
        omega

/-- The `check_open_trades` fold only keeps or drops trades, so the
resulting open set is no longer than the accumulator plus the input. -/
theorem checkTradeFold_length (cfg : BotConfig) (c : ℚ) :
    ∀ (l : List Trade) (acc : ℚ × List Trade),
      (l.foldl (checkTradeStep cfg c) acc).2.length ≤ acc.2.length + l.length := by
  intro l
  induction l with
  | nil => intro acc; simp
  | cons t ts ih =>
    intro acc
    refine le_trans (ih (checkTradeStep cfg c acc t)) ?_
    unfold checkTradeStep
    dsimp only
    split
    · simp only [List.length_append, List.length_cons, List.length_nil]
      omega
    · simp only [List.length_cons]
      omega

/-- `check_open_trades` never adds a trade. -/
theorem checkOpenTrades_length_le (cfg : BotConfig) (c : ℚ) (s : AgentState) :
    (checkOpenTrades cfg c s).open_trades.length ≤ s.open_trades.length := by
  have h := checkTradeFold_length cfg c s.open_trades (s.balance, [])
  simpa [checkOpenTrades] using h

/-- `update_risk_metrics` leaves the open-trade set unchanged. -/
theorem updateRiskMetrics_open_trades (cfg : BotConfig) (now : Timestamp)
    (s : AgentState) :
    (updateRiskMetrics cfg now s).open_trades = s.open_trades := by
  unfold updateRiskMetrics
  dsimp only
  split <;> split <;> rfl

/-- No main-loop operation pushes the open-trade count above the cap. -/
theorem botStep_length_le (cfg : BotConfig) (s : AgentState) (op : BotOp)
    (h : s.open_trades.length ≤ cfg.max_open_trades) :
    (botStep cfg s op).open_trades.length ≤ cfg.max_open_trades := by
  unfold botStep
  split
  · exact h
  · cases op with
    | exec sig p => exact executeTrade_length_le cfg sig p s h
    | checkTrades p => exact le_trans (checkOpenTrades_length_le cfg p s) h
    | risk now =>
      have he : applyOp cfg s (BotOp.risk now) = updateRiskMetrics cfg now s := rfl
      rw [he, updateRiskMetrics_open_trades]
      exact h

/-- Claim C4: when the open-trade count has reached `max_open_trades`,
`execute_trade` returns the rejection outcome and leaves the state (hence
`open_trades`) unchanged; a call from any state within the cap stays within
the cap; and starting from the initial state, any sequence of main-loop
operations keeps `len(open_trades) <= max_open_trades`. -/
theorem max_open_trades_cap (cfg : BotConfig) (signal : Signal) (p : ℚ)
    (s : AgentState) :
    (s.open_trades.length ≥ cfg.max_open_trades →
      executeTrade cfg signal p s = (ExecResult.maxOpenTradesReached, s)) ∧
    (s.open_trades.length ≤ cfg.max_open_trades →
      (executeTrade cfg signal p s).2.open_trades.length
        ≤ cfg.max_open_trades) ∧
    ∀ ops : List BotOp,
      (runOps cfg ops (initState cfg)).open_trades.length
        ≤ cfg.max_open_trades := by
  refine ⟨?_, fun h => executeTrade_length_le cfg signal p s h, ?_⟩
  · intro h
    unfold executeTrade
    rw [if_pos h]
  · intro ops
    have key : ∀ (l : List BotOp) (st : AgentState),
        st.open_trades.length ≤ cfg.max_open_trades →
        (runOps cfg l st).open_trades.length ≤ cfg.max_open_trades := by
      intro l
      induction l with
      | nil => intro st h; exact h
      | cons op tl ih => intro st h; exact ih _ (botStep_length_le cfg st op h)
    exact key ops (initState cfg) (by simp [initState])

/-- Claim C4 (witness): with the default cap of 3 and three open trades, a
fourth `execute_trade` call is rejected and changes nothing; the cap also
holds after a call from within the cap and along a concrete run. -/
theorem max_open_trades_cap_witness :
  executeTrade defaultBotConfig Signal.buy 50000 fullSampleState
      = (ExecResult.maxOpenTradesReached, fullSampleState) ∧
  (executeTrade defaultBotConfig Signal.buy 50000
      fullSampleState).2.open_trades.length ≤ defaultBotConfig.max_open_trades ∧
  (runOps defaultBotConfig [BotOp.exec Signal.buy 50000]
      (initState defaultBotConfig)).open_trades.length
    ≤ defaultBotConfig.max_open_trades := by
  refine ⟨(max_open_trades_cap defaultBotConfig Signal.buy 50000
            fullSampleState).1 (by simp [fullSampleState, sampleTrade, defaultBotConfig]),
          (max_open_trades_cap defaultBotConfig Signal.buy 50000
            fullSampleState).2.1 (by simp [fullSampleState, sampleTrade, defaultBotConfig]),
          (max_open_trades_cap defaultBotConfig Signal.buy 50000
            fullSampleState).2.2 [BotOp.exec Signal.buy 50000]⟩

/-- The `max_drawdown` written by `update_risk_metrics` is the maximum of
the previous value and the current drawdown, in both risk-limit branches. -/
theorem updateRiskMetrics_max_drawdown (cfg : BotConfig) (now : Timestamp)
    (s : AgentState) :
    (updateRiskMetrics cfg now s).max_drawdown
      = max s.max_drawdown (currentDrawdown cfg s) := by
  unfold updateRiskMetrics
  dsimp only
  split <;> split <;> rfl

/-- `execute_trade` never touches `max_drawdown`. -/
theorem executeTrade_max_drawdown (cfg : BotConfig) (signal : Signal) (p : ℚ)
    (s : AgentState) :
    (executeTrade cfg signal p s).2.max_drawdown = s.max_drawdown := by
  unfold executeTrade
  dsimp only
  split_ifs <;> first
    | rfl
    | (cases signal <;> rfl)

/-- `check_open_trades` never touches `max_drawdown`. -/
theorem checkOpenTrades_max_drawdown (cfg : BotConfig) (c : ℚ)
    (s : AgentState) :
    (checkOpenTrades cfg c s).max_drawdown = s.max_drawdown := rfl

/-- No single main-loop operation decreases `max_drawdown`. -/
theorem botStep_max_drawdown_mono (cfg : BotConfig) (s : AgentState)
    (op : BotOp) : s.max_drawdown ≤ (botStep cfg s op).max_drawdown := by
  unfold botStep
  split
  · exact le_refl _
  · cases op with
    | exec sig p =>
      rw [show applyOp cfg s (BotOp.exec sig p) = (executeTrade cfg sig p s).2
            from rfl,
          executeTrade_max_drawdown]
    | checkTrades p =>
      rw [show applyOp cfg s (BotOp.checkTrades p) = checkOpenTrades cfg p s
            from rfl,
          checkOpenTrades_max_drawdown]
    | risk now =>
      rw [show applyOp cfg s (BotOp.risk now) = updateRiskMetrics cfg now s
            from rfl,
          updateRiskMetrics_max_drawdown]
      exact le_max_left _ _

/-- Claim C7: each risk-update tick sets `max_drawdown` to the maximum of
its previous value and the current drawdown, so it never decreases at a
risk tick, and it never decreases across any sequence of main-loop
operations for a fixed agent. -/
theorem max_drawdown_monotone (cfg : BotConfig) (now : Timestamp)
    (s : AgentState) :
    (updateRiskMetrics cfg now s).max_drawdown
        = max s.max_drawdown (currentDrawdown cfg s) ∧
    s.max_drawdown ≤ (updateRiskMetrics cfg now s).max_drawdown ∧
    ∀ ops : List BotOp, s.max_drawdown ≤ (runOps cfg ops s).max_drawdown := by
  refine ⟨updateRiskMetrics_max_drawdown cfg now s, ?_, ?_⟩
  · rw [updateRiskMetrics_max_drawdown]
    exact le_max_left _ _
  · intro ops
    induction ops generalizing s with
    | nil => exact le_refl _
    | cons op tl ih =>
      exact le_trans (botStep_max_drawdown_mono cfg s op) (ih (botStep cfg s op))

/-- `execute_trade` never touches `daily_loss`. -/
theorem executeTrade_daily_loss (cfg : BotConfig) (signal : Signal) (p : ℚ)
    (s : AgentState) :
    (executeTrade cfg signal p s).2.daily_loss = s.daily_loss := by
  unfold executeTrade
  dsimp only
  split_ifs <;> first
    | rfl
    | (cases signal <;> rfl)

/-- A zero `daily_loss` stays zero through any single main-loop operation:
no operation of the engine ever adds to the accumulator. -/
theorem botStep_daily_loss (cfg : BotConfig) (s : AgentState) (op : BotOp)
    (h : s.daily_loss = 0) : (botStep cfg s op).daily_loss = 0 := by
  unfold botStep
  split
  · exact h
  · cases op with
    | exec sig p =>
      rw [show applyOp cfg s (BotOp.exec sig p) = (executeTrade cfg sig p s).2
            from rfl,
          executeTrade_daily_loss]
      exact h
    | checkTrades p => exact h
    | risk now =>
      rw [show applyOp cfg s (BotOp.risk now) = updateRiskMetrics cfg now s
            from rfl,
          updateRiskMetrics_daily_loss, h]
      simp

/-- Claim C9: from the initial state, every reachable agent state has
`daily_loss = 0` — no operation ever increases the accumulator — so the
halt condition `daily_loss >= max_daily_loss` can hold in a reachable state
exactly when the configured `max_daily_loss` is non-positive. -/
theorem daily_loss_always_zero (cfg : BotConfig) (ops : List BotOp) :
    (runOps cfg ops (initState cfg)).daily_loss = 0 ∧
    ((runOps cfg ops (initState cfg)).daily_loss ≥ cfg.max_daily_loss ↔
      cfg.max_daily_loss ≤ 0) := by
  have key : ∀ (l : List BotOp) (st : AgentState), st.daily_loss = 0 →
      (runOps cfg l st).daily_loss = 0 := by
    intro l
    induction l with
    | nil => intro st h; exact h
    | cons op tl ih => intro st h; exact ih _ (botStep_daily_loss cfg st op h)
  have h0 := key ops (initState cfg) rfl
  refine ⟨h0, ?_⟩
  rw [h0]
